import Mathlib

/-!
Verification development for the PyTado authentication/session/dialect layer
(src/PyTado/http.py together with the token managers under
src/PyTado/token_manager/).  The Python code is shallowly embedded: every
Python function of interest becomes an executable Lean definition over an
explicit session state, HTTP responses are supplied by environment oracles,
exceptions become an error sum type, and outbound HTTP calls together with
token-store writes are recorded as an event trace.
-/

/-- Python renders `None` as the string "None" inside f-string interpolation;
`str | None` attributes that flow into URL building are modelled as
`Option String` rendered through this function. -/
def pyStr : Option String → String
  | none => "None"
  | some s => s

/-- Exceptions raised by the embedded code.  The module `PyTado.exceptions`
is imported by src/PyTado/http.py but is not present under src/; its classes
are plain exception types, modelled here as constructors.  `tadoException`
is the spec taxonomy's TransportError / AuthorizationError /
AuthorizationExpiredError carrier, `tadoWrongCredentials` its
CredentialsError.  `attributeError`, `keyError`, `indexError` and
`typeError` model the corresponding Python built-in exceptions. -/
inductive PyError
  | tadoException (msg : String)
  | tadoWrongCredentials (msg : String)
  | attributeError (name : String)
  | keyError (key : String)
  | indexError
  | typeError (msg : String)
deriving Repr, DecidableEq

/-- JSON values, for resource-API response bodies (`response.json()`). -/
inductive Json
  | null
  | bool (b : Bool)
  | num (n : Int)
  | str (s : String)
  | arr (xs : List Json)
  | obj (kvs : List (String × Json))
deriving Repr

/-- Dictionary lookup on a JSON object: first binding of the key, `none`
otherwise (also on non-objects). -/
def Json.lookup? (j : Json) (k : String) : Option Json :=
  match j with
  | .obj kvs => (kvs.find? (fun kv => kv.1 = k)).map (·.2)
  | _ => none

/-- Embeds `data[k]` on a decoded JSON object: raises KeyError when missing. -/
def jsonGet (j : Json) (k : String) : Except PyError Json :=
  match j.lookup? k with
  | some v => .ok v
  | none => .error (.keyError k)

/-- Embeds `xs[0]` on a decoded JSON value: IndexError on an empty list, TypeError
on a non-list. -/
def jsonFirst (j : Json) : Except PyError Json :=
  match j with
  | .arr (x :: _) => .ok x
  | .arr [] => .error .indexError
  | _ => .error (.typeError "list index expected")

/-- Reading a JSON value as an integer (home ids). -/
def jsonAsInt (j : Json) : Except PyError Int :=
  match j with
  | .num n => .ok n
  | _ => .error (.typeError "int expected")

/-- Body of a successful token-endpoint response, as read by
`Http._set_oauth_header`: `data["access_token"]`, `data["expires_in"]`,
`data["refresh_token"]`.  `expires_in` is a number of seconds. -/
structure TokenBody where
  access_token : String
  expires_in : Int
  refresh_token : String
deriving Repr, DecidableEq

/-- The device-authorization payload (the dict handed to
`Http._set_device_auth_data` and persisted by
`save_pending_device_data`).  Keys that the code reads with `.get` or
subscripting are optional fields; `expires_at` is the absolute expiry
timestamp that `DeviceTokenManager.has_pending_device_data` reads from the
persisted record (ISO8601 in the file, modelled as epoch seconds). -/
structure DeviceFlowData where
  user_code : Option String
  device_code : Option String
  verification_uri : Option String
  expires_in : Option Int
  interval : Option Int
  expires_at : Option Int
deriving Repr, DecidableEq

/-- Python dict truthiness for the payload: falsy iff it has no keys. -/
def DeviceFlowData.isEmptyDict (d : DeviceFlowData) : Bool :=
  d.user_code.isNone && d.device_code.isNone && d.verification_uri.isNone
    && d.expires_in.isNone && d.interval.isNone && d.expires_at.isNone

/-- Durable content of the token store (the sync file of
`DeviceTokenManager`, keys `oauth_data` / `pending_device`): at most one
refresh token and at most one pending device-authorization payload. -/
structure Store where
  refreshToken : Option String
  pending : Option DeviceFlowData
deriving Repr, DecidableEq

/-- Modelled from the spec: `save_refresh_token(token) -> void` durably
overwrites the prior refresh-token value.  `Http._set_oauth_header` calls
`self._token_manager.save_token(refresh_token)`, but no token manager under
src/ defines `save_token`; the spec's TokenStore contract supplies its
meaning. -/
def saveToken (s : Store) (r : String) : Store :=
  { s with refreshToken := some r }

/-- Embeds `DeviceTokenManager.save_pending_device_data`: a falsy dict clears the
sync file; otherwise the whole file is replaced by
`(pending_device := data)`, which drops any stored `oauth_data` key. -/
def savePending (s : Store) (d : DeviceFlowData) : Store :=
  if d.isEmptyDict then { refreshToken := none, pending := none }
  else { refreshToken := none, pending := some d }

/-- Embeds `DeviceTokenManager.has_pending_device_data`: true only if a pending
record exists and `now < expires_at`; reading the `expires_at` key of a
record that lacks it raises KeyError. -/
def hasPending (s : Store) (now : Int) : Except PyError Bool :=
  match s.pending with
  | none => .ok false
  | some d =>
    match d.expires_at with
    | none => .error (.keyError "expires_at")
    | some t => .ok (decide (now < t))

/-- Embeds `DeviceTokenManager.load_pending_device_data`: raises when absent. -/
def loadPending (s : Store) : Except PyError DeviceFlowData :=
  match s.pending with
  | none => .error (.tadoException "No pending device data found")
  | some d => .ok d

/-- The `DeviceActivationStatus` enum of src/PyTado/http.py. -/
inductive DeviceActivationStatus
  | NOT_STARTED
  | PENDING
  | COMPLETED
deriving Repr, DecidableEq

/-- The `Endpoint` StrEnum of src/PyTado/http.py. -/
inductive Endpoint
  | MY_API
  | HOPS_API
  | MOBILE
  | EIQ
  | TARIFF
  | GENIE
  | MINDER
deriving Repr, DecidableEq

/-- The string value of each `Endpoint` member. -/
def Endpoint.str : Endpoint → String
  | .MY_API => "https://my.tado.com/api/v2/"
  | .HOPS_API => "https://hops.tado.com/"
  | .MOBILE => "https://my.tado.com/mobile/1.9/"
  | .EIQ => "https://energy-insights.tado.com/api/"
  | .TARIFF => "https://tariff-experience.tado.com/api/"
  | .GENIE => "https://genie.tado.com/api/v2/"
  | .MINDER => "https://minder.tado.com/v1/"

/-- The `Domain` StrEnum of src/PyTado/http.py. -/
inductive Domain
  | HOME
  | DEVICES
  | ME
  | HOME_BY_BRIDGE
deriving Repr, DecidableEq

/-- The string value of each `Domain` member. -/
def Domain.str : Domain → String
  | .HOME => "homes"
  | .DEVICES => "devices"
  | .ME => "me"
  | .HOME_BY_BRIDGE => "homeByBridge"

/-- Python `Action` is a StrEnum, so its members are their string values and
member-to-string comparison is plain string equality; `action` attributes
(`Action | str` in the source) are therefore modelled as `String`. -/
def Action.GET : String := "GET"

/-- The `Action.SET` member value. -/
def Action.SET : String := "POST"

/-- The `Action.RESET` member value. -/
def Action.RESET : String := "DELETE"

/-- The `Action.CHANGE` member value. -/
def Action.CHANGE : String := "PUT"

/-- The `Mode` enum of src/PyTado/http.py. -/
inductive Mode
  | OBJECT
  | PLAIN
deriving Repr, DecidableEq

/-- Embeds `TadoRequest`: data container for my.tado.com API requests.  `command`
and `device` keep their Python `| None` typing (an `int` device is its
decimal rendering); `params` is the optional query-parameter dict, as an
association list. -/
structure TadoRequest where
  endpoint : Endpoint := .MY_API
  command : Option String := none
  action : String := Action.GET
  payload : Option Json := none
  domain : Domain := .HOME
  device : Option String := none
  mode : Mode := .OBJECT
  params : Option (List (String × String)) := none

/-- Embeds `TadoXRequest`: same fields, but the verb handed to the constructor is
kept in `_action` (the `action` property setter and the trailing
`self._action = action` both write it) and read back through the
remapping getter below.  Default endpoint is the hops API. -/
structure TadoXRequest where
  endpoint : Endpoint := .HOPS_API
  command : Option String := none
  actionStored : String := Action.GET
  payload : Option Json := none
  domain : Domain := .HOME
  device : Option String := none
  mode : Mode := .OBJECT
  params : Option (List (String × String)) := none

/-- Embeds `TadoXRequest.action` property getter: `Action.CHANGE` (the string
"PUT") resolves to "PATCH", everything else is returned unchanged. -/
def TadoXRequest.action (r : TadoXRequest) : String :=
  if r.actionStored = Action.CHANGE then "PATCH" else r.actionStored

/-- Embeds `TadoRequest(action=a)`: the legacy constructor stores the verb in a
plain attribute. -/
def mkTadoRequest (a : String) : TadoRequest :=
  { action := a }

/-- Embeds `TadoXRequest(action=a)`: the next-generation constructor stores the
verb in `_action`. -/
def mkTadoXRequest (a : String) : TadoXRequest :=
  { actionStored := a }

/-- Embeds `urllib.parse.urlencode` on a parameter dict, modelled for inputs free
of characters that need percent-escaping (the only use the claims make of
it): `k1=v1&k2=v2&...`. -/
def urlencode (ps : List (String × String)) : String :=
  String.intercalate "&" (ps.map (fun kv => kv.1 ++ "=" ++ kv.2))

/-- The query-string suffix of `Http._configure_url`: appended exactly when
`request.params is not None`. -/
def queryString (ps : Option (List (String × String))) : String :=
  match ps with
  | none => ""
  | some ps => "?" ++ urlencode ps

/-- Outbound-call and store-write trace events. -/
inductive Event
  | tokenEndpoint
  | deviceAuthorize
  | resourceSend
  | recreateSession
  | storeWriteRefresh (r : String)
  | storeWritePending (d : DeviceFlowData)
deriving Repr, DecidableEq

/-- Occurrence count of an event in a trace. -/
def countEv (e : Event) : List Event → Nat
  | [] => 0
  | x :: xs => (if x = e then 1 else 0) + countEv e xs

/-- Mutable attributes of `Http` (src/PyTado/http.py `__init__`), plus the
durable store it talks to.  `auth_header` is the `Authorization` entry of
`self._headers`; `refresh_at` and `expires_at` are UTC timestamps in
seconds. -/
structure HttpState where
  token_refresh : Option String
  refresh_at : Int
  auth_header : Option String
  user_code : Option String
  device_code : Option String
  device_verification_url : Option String
  device_activation_status : DeviceActivationStatus
  check_interval : Int
  expires_at : Option Int
  id : Option Int
  x_api : Option Bool
  store : Store
deriving Repr, DecidableEq

/-- Embeds `Http._set_oauth_header(data)`: remember the refresh token, set the
refresh deadline to now + expires_in - 30 (the fixed 30-second safety
margin), install the bearer access token in the headers, and persist the
refresh token.  Returns the new state and the store-write trace. -/
def set_oauth_header (st : HttpState) (now : Int) (data : TokenBody) :
    HttpState × List Event :=
  ({ st with
      token_refresh := some data.refresh_token
      refresh_at := now + data.expires_in - 30
      auth_header := some ("Bearer " ++ data.access_token)
      store := saveToken st.store data.refresh_token },
   [Event.storeWriteRefresh data.refresh_token])

/-- Outcome of one POST to the oauth2/token endpoint with the
refresh_token grant: a connection error, or a response with a status code
and (for the fields `Http._set_oauth_header` reads) an optional
token-shaped body; a 200 body lacking those keys raises KeyError. -/
inductive TokenEndpointOutcome
  | connError
  | resp (status : Int) (body : Option TokenBody)

/-- Embeds `Http._refresh_token(refresh_token, force_refresh)`: skip when the
cached deadline has not passed and the refresh is not forced; otherwise
recreate the transport session, call the token endpoint once, and
dispatch on the status: non-200 returns False under force_refresh and
raises TadoWrongCredentialsException otherwise; 200 installs the token
via `set_oauth_header` and returns True.  A connection error raises
TadoException. -/
def refresh_token_call (st : HttpState) (now : Int) (refreshTokArg : Option String)
    (force : Bool) (out : TokenEndpointOutcome) :
    Except PyError Bool × HttpState × List Event :=
  if now ≤ st.refresh_at ∧ ¬force then (.ok true, st, [])
  else
    match out with
    | .connError =>
      (.error (.tadoException "Connection error"), st,
       [Event.recreateSession, Event.tokenEndpoint])
    | .resp status body =>
      if status ≠ 200 then
        if force then
          (.ok false, st, [Event.recreateSession, Event.tokenEndpoint])
        else
          (.error (.tadoWrongCredentials "Failed to refresh token, probably wrong credentials"),
           st, [Event.recreateSession, Event.tokenEndpoint])
      else
        match body with
        | none =>
          (.error (.keyError "access_token"), st,
           [Event.recreateSession, Event.tokenEndpoint])
        | some tb =>
          let p := set_oauth_header st now tb
          (.ok true, p.1, [Event.recreateSession, Event.tokenEndpoint] ++ p.2)

/-- Embeds `Http._configure_url(request)`: the MOBILE endpoint short-circuits to
`{endpoint}{command}`; DEVICES and HOME_BY_BRIDGE use
`{endpoint}{domain}/{device}/{command}`; ME uses `{endpoint}{domain}`;
every other domain (HOME) interpolates the resolved home id with the `:d`
format, which raises TypeError while `self._id` is None.  The encoded
query string is appended when params is not None. -/
def configure_url (st : HttpState) (req : TadoRequest) : Except PyError String :=
  match
    (if req.endpoint = Endpoint.MOBILE then
      .ok (req.endpoint.str ++ pyStr req.command)
    else if req.domain = Domain.DEVICES ∨ req.domain = Domain.HOME_BY_BRIDGE then
      .ok (req.endpoint.str ++ req.domain.str ++ "/" ++ pyStr req.device ++ "/"
            ++ pyStr req.command)
    else if req.domain = Domain.ME then
      .ok (req.endpoint.str ++ req.domain.str)
    else
      match st.id with
      | none => .error (.typeError "unsupported format string passed to NoneType.__format__")
      | some i =>
        .ok (req.endpoint.str ++ req.domain.str ++ "/" ++ toString i ++ "/"
              ++ pyStr req.command) : Except PyError String)
  with
  | .error e => .error e
  | .ok url => .ok (url ++ queryString req.params)

/-- A resource-API response: status code and body text, the latter either
empty or decoded JSON (`response.json()`). -/
structure HttpResponse where
  status : Int
  text : Option Json

/-- Outcome of one `self._session.send(prepped)` attempt. -/
inductive SendOutcome
  | connError
  | credsError (msg : String)
  | resp (r : HttpResponse)

/-- The retry loop of `Http.request`: `retries` starts at
`_DEFAULT_RETRIES = 5`; each connection error with retries remaining
closes and recreates the session and decrements; with none remaining it
raises TadoException.  A TadoWrongCredentialsException is re-raised
immediately.  Returns the response together with the index of the
successful attempt, and the trace of sends and session recreations. -/
def sendLoop (sends : Nat → SendOutcome) : Nat → Nat →
    Except PyError (HttpResponse × Nat) × List Event
  | i, 0 =>
    match sends i with
    | .resp r => (.ok (r, i), [Event.resourceSend])
    | .credsError m => (.error (.tadoWrongCredentials m), [Event.resourceSend])
    | .connError =>
      (.error (.tadoException "Connection failed after retries"), [Event.resourceSend])
  | i, f + 1 =>
    match sends i with
    | .resp r => (.ok (r, i), [Event.resourceSend])
    | .credsError m => (.error (.tadoWrongCredentials m), [Event.resourceSend])
    | .connError =>
      let p := sendLoop sends (i + 1) f
      (p.1, Event.resourceSend :: Event.recreateSession :: p.2)

/-- Embeds `{}` for an empty body text, the decoded JSON otherwise
(`Http.request`, last lines). -/
def decodeText (t : Option Json) : Json :=
  match t with
  | none => Json.obj []
  | some j => j

/-- Environment for one `Http.request` call: the wall-clock time, the
token-endpoint outcome should a refresh trigger, and the outcome of every
send attempt of the retry loop. -/
structure RequestEnv where
  now : Int
  refreshOut : TokenEndpointOutcome
  sends : Nat → SendOutcome

/-- Embeds `Http.request(request)`: implicit token refresh, URL construction,
bounded-retry send, then body decoding.  The HTTP status code of the
resource response is never inspected.  Payload encoding
(`_configure_payload`) only shapes the outbound bytes and content-type
headers and is not tracked in the state. -/
def request (st : HttpState) (env : RequestEnv) (req : TadoRequest) :
    Except PyError Json × HttpState × List Event :=
  let r1 := refresh_token_call st env.now none false env.refreshOut
  match r1.1 with
  | .error e => (.error e, r1.2.1, r1.2.2)
  | .ok _ =>
    match configure_url r1.2.1 req with
    | .error e => (.error e, r1.2.1, r1.2.2)
    | .ok _url =>
      let p := sendLoop env.sends 0 5
      match p.1 with
      | .error e => (.error e, r1.2.1, r1.2.2 ++ p.2)
      | .ok (resp, _k) => (.ok (decodeText resp.text), r1.2.1, r1.2.2 ++ p.2)

/-- Embeds `Http._set_device_auth_data(device_flow_data)`: persists the pending
payload, installs user and device codes, builds the verification URL when
a user code is present (Python truthiness: absent or empty string skips
it), and then reads `self._device_flow_data["expires_in"]` — an attribute
that is assigned nowhere in the class, so the method always raises
AttributeError at that line (the assignments to `self._expires_at` and the
PENDING return below it are unreachable). -/
def set_device_auth_data (st : HttpState) (d : DeviceFlowData) :
    Except PyError DeviceActivationStatus × HttpState × List Event :=
  let st1 := { st with
      store := savePending st.store d
      user_code := d.user_code
      device_code := d.device_code }
  let ev := [Event.storeWritePending d]
  match d.user_code with
  | some uc =>
    if uc = "" then
      (.error (.attributeError "_device_flow_data"), st1, ev)
    else
      match d.verification_uri with
      | none => (.error (.keyError "verification_uri"), st1, ev)
      | some v =>
        let st2 := { st1 with
            device_verification_url := some (v ++ "?" ++ urlencode [("user_code", uc)]) }
        (.error (.attributeError "_device_flow_data"), st2, ev)
  | none => (.error (.attributeError "_device_flow_data"), st1, ev)

/-- Outcome of one POST to the oauth2/device_authorize endpoint. -/
inductive DevAuthOutcome
  | connError
  | resp (status : Int) (body : DeviceFlowData)

/-- Embeds `Http._login_device_flow()`: resume a non-expired pending
authorization from the store without any HTTP request; otherwise (after
the NOT_STARTED guard) request a new device code once and install the
returned payload.  `raise_for_status` turns any status of 400 and above
into a TadoException. -/
def login_device_flow (st : HttpState) (now : Int) (devOut : DevAuthOutcome) :
    Except PyError DeviceActivationStatus × HttpState × List Event :=
  match hasPending st.store now with
  | .error e => (.error e, st, [])
  | .ok true =>
    match loadPending st.store with
    | .error e => (.error e, st, [])
    | .ok d => set_device_auth_data st d
  | .ok false =>
    if st.device_activation_status ≠ DeviceActivationStatus.NOT_STARTED then
      (.error (.tadoException "The device has been started already"), st, [])
    else
      match devOut with
      | .connError => (.error (.tadoException "Connection error"), st, [Event.deviceAuthorize])
      | .resp status body =>
        if 400 ≤ status then
          (.error (.tadoException "Login failed"), st, [Event.deviceAuthorize])
        else
          let p := set_device_auth_data st body
          (p.1, p.2.1, Event.deviceAuthorize :: p.2.2)

/-- Outcome of one poll of the token endpoint with the device_code grant:
connection error, or a response whose JSON body is viewed through the two
reads the code performs — the token fields consumed on status 200 and the
`error` key consumed on status 400 (absent key: KeyError). -/
inductive PollOutcome
  | connError
  | resp (status : Int) (token : Option TokenBody) (errorField : Option String)

/-- Embeds `Http._check_device_activation()`: short-circuit True when already
COMPLETED; fail with TadoException when the wall clock has passed
`expires_at`, before any HTTP call; otherwise (after the real
`time.sleep`, which the model elides) poll the token endpoint once:
200 installs the token and returns True, 400 with
error == "authorization_pending" returns False, anything else raises. -/
def check_device_activation (st : HttpState) (now : Int) (out : PollOutcome) :
    Except PyError Bool × HttpState × List Event :=
  if st.device_activation_status = DeviceActivationStatus.COMPLETED then
    (.ok true, st, [])
  else if (match st.expires_at with | some t => decide (t < now) | none => false) then
    (.error (.tadoException "User took too long to enter key"), st, [])
  else
    match out with
    | .connError => (.error (.tadoException "Connection error"), st, [Event.tokenEndpoint])
    | .resp status token errorField =>
      if status = 200 then
        match token with
        | none => (.error (.keyError "access_token"), st, [Event.tokenEndpoint])
        | some tb =>
          let p := set_oauth_header st now tb
          (.ok true, p.1, Event.tokenEndpoint :: p.2)
      else if status = 400 then
        match errorField with
        | none => (.error (.keyError "error"), st, [Event.tokenEndpoint])
        | some e =>
          if e = "authorization_pending" then
            (.ok false, st, [Event.tokenEndpoint])
          else
            (.error (.tadoException "Login failed"), st, [Event.tokenEndpoint])
      else
        (.error (.tadoException "Login failed"), st, [Event.tokenEndpoint])

/-- The `TadoRequest()` built by `Http._get_id` (action GET, domain ME). -/
def getIdRequest : TadoRequest :=
  { action := Action.GET, domain := Domain.ME }

/-- The `TadoRequest()` built by `Http._check_x_line_generation`
(action GET, domain HOME, command ""). -/
def xLineRequest : TadoRequest :=
  { action := Action.GET, domain := Domain.HOME, command := some "" }

/-- Embeds `"generation" in home_ and home_["generation"] == "LINE_X"` of
`Http._check_x_line_generation`. -/
def generationCheck (home : Json) : Bool :=
  match home.lookup? "generation" with
  | some (Json.str s) => s = "LINE_X"
  | _ => false

/-- Embeds `Http._device_ready()`: resolve the home id with a ME request
(`_get_id` takes `["homes"][0]["id"]` of the body), detect the dialect
with a home-info request, clear the device codes and mark the session
COMPLETED.  Each of the two inner `Http.request` calls takes its own
environment; an exception at any point leaves the mutations made so far
in place. -/
def device_ready (st : HttpState) (envA envB : RequestEnv) :
    Except PyError Unit × HttpState × List Event :=
  let r1 := request st envA getIdRequest
  match r1.1 with
  | .error e => (.error e, r1.2.1, r1.2.2)
  | .ok body =>
    match jsonGet body "homes" >>= jsonFirst >>= (jsonGet · "id") >>= jsonAsInt with
    | .error e => (.error e, r1.2.1, r1.2.2)
    | .ok n =>
      let st2 := { r1.2.1 with id := some n }
      let r2 := request st2 envB xLineRequest
      match r2.1 with
      | .error e => (.error e, r2.2.1, r1.2.2 ++ r2.2.2)
      | .ok home =>
        (.ok (), { r2.2.1 with
            x_api := some (generationCheck home)
            user_code := none
            device_verification_url := none
            device_activation_status := DeviceActivationStatus.COMPLETED },
         r1.2.2 ++ r2.2.2)

/-- The state `Http.__init__` builds before authenticating: empty headers
and codes, refresh deadline now + 10 minutes, NOT_STARTED, poll interval
10, and the injected token store. -/
def initialState (store0 : Store) (now : Int) : HttpState :=
  { token_refresh := none
    refresh_at := now + 600
    auth_header := none
    user_code := none
    device_code := none
    device_verification_url := none
    device_activation_status := DeviceActivationStatus.NOT_STARTED
    check_interval := 10
    expires_at := none
    id := none
    x_api := none
    store := store0 }

/-- The `else` arm of `Http.__init__`:
`self._device_activation_status = self._login_device_flow()`; an exception
aborts construction. -/
def initLoginPath (st : HttpState) (now : Int) (devOut : DevAuthOutcome) :
    Except PyError HttpState :=
  match login_device_flow st now devOut with
  | (.error e, _, _) => .error e
  | (.ok s, st1, _) => .ok { st1 with device_activation_status := s }

/-- Embeds `Http.__init__`: load the saved refresh token; when one is present
(non-empty) try a forced refresh and, on success, run `_device_ready`;
otherwise fall back to the device flow.  Returns the constructed session
state, or the exception that aborted construction. -/
def init (store0 : Store) (now : Int) (refreshOut : TokenEndpointOutcome)
    (envA envB : RequestEnv) (devOut : DevAuthOutcome) : Except PyError HttpState :=
  let st0 := initialState store0 now
  match store0.refreshToken with
  | none => initLoginPath st0 now devOut
  | some s =>
    if s = "" then initLoginPath st0 now devOut
    else
      let r := refresh_token_call st0 now (some s) true refreshOut
      match r.1 with
      | .error e => .error e
      | .ok true =>
        let r2 := device_ready r.2.1 envA envB
        match r2.1 with
        | .error e => .error e
        | .ok _ => .ok r2.2.1
      | .ok false => initLoginPath r.2.1 now devOut

/-- One observable operation of a constructed session: a resource request
(`Http.request`), one poll step of `Http.device_activation` (which raises
without mutation while NOT_STARTED), or the `_device_ready` epilogue of
`device_activation`.  The successor state is taken whether the operation
returns or raises, since a Python exception leaves earlier attribute
mutations in place. -/
inductive SessionStep : HttpState → HttpState → Prop
  | issue (st : HttpState) (env : RequestEnv) (req : TadoRequest) :
      SessionStep st (request st env req).2.1
  | poll (st : HttpState) (now : Int) (out : PollOutcome) :
      st.device_activation_status ≠ DeviceActivationStatus.NOT_STARTED →
      SessionStep st (check_device_activation st now out).2.1
  | ready (st : HttpState) (envA envB : RequestEnv) :
      st.device_activation_status ≠ DeviceActivationStatus.NOT_STARTED →
      SessionStep st (device_ready st envA envB).2.1

/-- Session states reachable through the public API: a successful
construction followed by any sequence of session operations. -/
inductive Reachable : HttpState → Prop
  | init (store0 : Store) (now : Int) (refreshOut : TokenEndpointOutcome)
      (envA envB : RequestEnv) (devOut : DevAuthOutcome) (st : HttpState) :
      init store0 now refreshOut envA envB devOut = .ok st → Reachable st
  | step (st st' : HttpState) : Reachable st → SessionStep st st' → Reachable st'

/-- Trace of one failed-and-retried send attempt, repeated. -/
def failEvents : Nat → List Event
  | 0 => []
  | m + 1 => Event.resourceSend :: Event.recreateSession :: failEvents m

/-- The string payloads of a pending device-authorization record. -/
def DeviceFlowData.strings (d : DeviceFlowData) : List String :=
  d.user_code.toList ++ d.device_code.toList ++ d.verification_uri.toList

/-- Every string held durably by the token store. -/
def Store.strings (s : Store) : List String :=
  s.refreshToken.toList ++ (match s.pending with
    | none => []
    | some d => d.strings)

/-- Refresh-token strings a token-endpoint outcome can hand the session. -/
def TokenEndpointOutcome.refreshStrings : TokenEndpointOutcome → List String
  | .resp _ (some tb) => [tb.refresh_token]
  | _ => []

/-- Access-token strings a token-endpoint outcome can hand the session. -/
def TokenEndpointOutcome.accessStrings : TokenEndpointOutcome → List String
  | .resp _ (some tb) => [tb.access_token]
  | _ => []

/-- Refresh-token strings a device-code poll outcome can hand the session. -/
def PollOutcome.refreshStrings : PollOutcome → List String
  | .resp _ (some tb) _ => [tb.refresh_token]
  | _ => []

/-- String payloads of a device-authorize response body. -/
def DevAuthOutcome.bodyStrings : DevAuthOutcome → List String
  | .resp _ d => d.strings
  | _ => []

/-- Refresh-token strings of a request environment. -/
def RequestEnv.refreshStrings (e : RequestEnv) : List String :=
  e.refreshOut.refreshStrings

/-- A well-formed token-endpoint body used by concrete witnesses. -/
def demoToken : TokenBody :=
  { access_token := "ACCESS-SECRET", expires_in := 3600, refresh_token := "REFRESH-1" }

/-- A pending device-authorization payload, mirroring the
`token_manager_pending` fixture of tests/test_http.py plus the persisted
absolute expiry the load path expects. -/
def demoPending : DeviceFlowData :=
  { user_code := some "7BQ5ZQ", device_code := some "mock_code",
    verification_uri := some "https://login.tado.com/oauth2/device",
    expires_in := some 300, interval := some 5, expires_at := some 2000 }

/-- A store holding only a non-expired pending authorization. -/
def demoPendingStore : Store := { refreshToken := none, pending := some demoPending }

/-- A store holding only a saved refresh token. -/
def demoTokenStore : Store := { refreshToken := some "r0", pending := none }

/-- An authenticated-looking session state with a live refresh deadline. -/
def demoAuthState : HttpState :=
  { initialState demoTokenStore 0 with refresh_at := 100, id := some 1234 }

/-- A session state waiting on the device flow. -/
def demoPendingState : HttpState :=
  { initialState demoPendingStore 1000 with
      device_activation_status := DeviceActivationStatus.PENDING
      expires_at := some 2000 }

/-- A resource response with a server-error status and a JSON error body. -/
def demoErrorResponse : HttpResponse :=
  { status := 500, text := some (Json.obj [("error", Json.str "boom")]) }

/-- A successful empty-bodied resource response. -/
def demoOkResponse : HttpResponse := { status := 200, text := none }

/-- Environment whose resource sends always yield the 500 response. -/
def demoEnv500 : RequestEnv :=
  { now := 0, refreshOut := .resp 200 (some demoToken),
    sends := fun _ => .resp demoErrorResponse }

/-- Environment failing the first two sends with connection errors. -/
def demoEnvRetry : RequestEnv :=
  { now := 0, refreshOut := .resp 200 (some demoToken),
    sends := fun j => if j < 2 then .connError else .resp demoOkResponse }

/-- Environment whose sends always raise a connection error. -/
def demoEnvDown : RequestEnv :=
  { now := 0, refreshOut := .resp 200 (some demoToken),
    sends := fun _ => .connError }

/-- Environment that triggers a successful refresh (deadline passed at
time 200) and then serves the 500 response. -/
def demoEnvRefresh : RequestEnv :=
  { now := 200, refreshOut := .resp 200 (some demoToken),
    sends := fun _ => .resp demoErrorResponse }

/-- The ME response body `(homes := [(id := 1234)])` used by witnesses. -/
def demoMeBody : Json := Json.obj [("homes", Json.arr [Json.obj [("id", Json.num 1234)]])]

/-- A home-info body carrying the next-generation marker. -/
def demoHomeBody : Json := Json.obj [("generation", Json.str "LINE_X")]

/-- Environment resolving the ME request during `_device_ready`. -/
def demoEnvMe : RequestEnv :=
  { now := 10, refreshOut := .resp 200 (some demoToken),
    sends := fun _ => .resp { status := 200, text := some demoMeBody } }

/-- Environment resolving the home-info request during `_device_ready`. -/
def demoEnvHome : RequestEnv :=
  { now := 11, refreshOut := .resp 200 (some demoToken),
    sends := fun _ => .resp { status := 200, text := some demoHomeBody } }

/-- A legacy descriptor against the DEVICES domain. -/
def demoDeviceRequest : TadoRequest :=
  { domain := Domain.DEVICES, device := some "d1", command := some "cmd" }

/-- The MOBILE-endpoint descriptor of the C8 counterexample. -/
def demoMobileRequest : TadoRequest :=
  { endpoint := Endpoint.MOBILE, domain := Domain.DEVICES,
    device := some "d1", command := some "cmd" }

/-- The device-activation view of a session state: the fields the claims
about COMPLETED sessions talk about (user code, verification URL, status,
home id, dialect flag), bundled for preservation lemmas. -/
def uiFields (st : HttpState) :
    Option String × Option String × DeviceActivationStatus × Option Int × Option Bool :=
  (st.user_code, st.device_verification_url, st.device_activation_status,
   st.id, st.x_api)

/-- A fully concrete successful construction: saved refresh token, refresh
answered 200, ME and home-info requests answered from the demo bodies. -/
def demoInit : Except PyError HttpState :=
  init demoTokenStore 0 (.resp 200 (some demoToken)) demoEnvMe demoEnvHome
    (.resp 200 demoPending)

/-- The session state demoInit constructs. -/
def demoInitState : HttpState :=
  demoInit.toOption.getD (initialState demoTokenStore 0)

/-- Claim C7: reading the verb back from a next-generation descriptor
(`TadoXRequest`) turns `Action.CHANGE` (PUT) into PATCH, while a legacy
descriptor (`TadoRequest`) returns PUT unchanged; every other verb is
returned unchanged by both variants. -/
theorem tadox_put_remap :
    (mkTadoXRequest Action.CHANGE).action = "PATCH"
    ∧ (mkTadoRequest Action.CHANGE).action = "PUT"
    ∧ ∀ a : String, a ≠ "PUT" →
        (mkTadoXRequest a).action = a ∧ (mkTadoRequest a).action = a := by
  refine ⟨rfl, rfl, fun a ha => ⟨?_, rfl⟩⟩
  simp [mkTadoXRequest, TadoXRequest.action, Action.CHANGE, ha]

/-- Concrete instance of tadox_put_remap: GET passes through both
descriptor variants unchanged. -/
theorem tadox_put_remap_witness :
    ("GET" : String) ≠ "PUT"
    ∧ (mkTadoXRequest "GET").action = "GET"
    ∧ (mkTadoRequest "GET").action = "GET" :=
  ⟨by decide, (tadox_put_remap.2.2 "GET" (by decide)).1,
    (tadox_put_remap.2.2 "GET" (by decide)).2⟩

/-- Claim C8 counterexample: a descriptor with the MOBILE endpoint and the
DEVICES domain is resolved to `(service root)(command)` by
`Http._configure_url`, not to the `(service root)(domain)/(device)/(path)`
shape the claim asserts for every descriptor with domain DEVICES. -/
theorem configure_url_mobile_counterexample :
    configure_url (initialState demoTokenStore 0) demoMobileRequest
      = .ok "https://my.tado.com/mobile/1.9/cmd"
    ∧ "https://my.tado.com/mobile/1.9/cmd"
      ≠ Endpoint.MOBILE.str ++ Domain.DEVICES.str ++ "/" ++ "d1" ++ "/" ++ "cmd" :=
  ⟨rfl, by decide⟩

/-- Claim C8 (amended): for every descriptor whose endpoint is not MOBILE,
the built URL is `(root)(domain)/(device)/(path)` for the DEVICES (and
HOME_BY_BRIDGE) domains, `(root)(domain)` for ME, and
`(root)(domain)/(home id)/(path)` for HOME once the home id is resolved;
the encoded query string is appended exactly when params is not None.
A MOBILE-endpoint descriptor instead resolves to `(root)(command)`
regardless of domain. -/
theorem configure_url_shapes (st : HttpState) (req : TadoRequest) (i : Int) :
    req.endpoint ≠ Endpoint.MOBILE →
    ((req.domain = Domain.DEVICES ∨ req.domain = Domain.HOME_BY_BRIDGE →
        configure_url st req
          = .ok (req.endpoint.str ++ req.domain.str ++ "/" ++ pyStr req.device
              ++ "/" ++ pyStr req.command ++ queryString req.params))
     ∧ (req.domain = Domain.ME →
        configure_url st req
          = .ok (req.endpoint.str ++ req.domain.str ++ queryString req.params))
     ∧ (req.domain = Domain.HOME → st.id = some i →
        configure_url st req
          = .ok (req.endpoint.str ++ req.domain.str ++ "/" ++ toString i
              ++ "/" ++ pyStr req.command ++ queryString req.params))
     ∧ queryString none = "" ∧ (∀ ps, queryString (some ps) = "?" ++ urlencode ps)) := by
  intro hmob
  refine ⟨?_, ?_, ?_, rfl, fun ps => rfl⟩
  · intro hd
    rcases hd with hd | hd <;> simp [configure_url, hmob, hd]
  · intro hd
    simp [configure_url, hmob, hd]
  · intro hd hid
    simp [configure_url, hmob, hd, hid]

/-- Concrete instance of configure_url_shapes: the DEVICES shape on the
legacy service root. -/
theorem configure_url_shapes_witness :
    demoDeviceRequest.endpoint ≠ Endpoint.MOBILE
    ∧ demoDeviceRequest.domain = Domain.DEVICES
    ∧ configure_url demoAuthState demoDeviceRequest
        = .ok (demoDeviceRequest.endpoint.str ++ demoDeviceRequest.domain.str ++ "/"
            ++ pyStr demoDeviceRequest.device ++ "/" ++ pyStr demoDeviceRequest.command
            ++ queryString demoDeviceRequest.params) :=
  ⟨by decide, rfl,
    (configure_url_shapes demoAuthState demoDeviceRequest 1234 (by decide)).1 (Or.inl rfl)⟩

/-- Claim C1 counterexample: `Http.request` never inspects the HTTP status
code; a 500 response with a JSON body is returned as an ordinary result
(the decoded body) instead of raising an ApiError. -/
theorem request_non2xx_counterexample :
    (request demoAuthState demoEnv500 { domain := Domain.ME }).1
      = .ok (Json.obj [("error", Json.str "boom")])
    ∧ ∀ e : PyError,
        (request demoAuthState demoEnv500 { domain := Domain.ME }).1 ≠ .error e :=
  ⟨rfl, fun e h => Except.noConfusion h⟩

/-- Claim C1 (amended): `Http.request` returns the decoded JSON body of
the first completed response whatever its HTTP status code, and an empty
body yields the empty object with no error; no error is ever raised on a
non-2xx status. -/
theorem request_returns_decoded_body (st : HttpState) (env : RequestEnv)
    (req : TadoRequest) (r : HttpResponse) (u : String) :
    env.now ≤ st.refresh_at →
    configure_url st req = .ok u →
    env.sends 0 = .resp r →
    (request st env req).1 = .ok (decodeText r.text) := by
  intro h1 h2 h3
  have hr : refresh_token_call st env.now none false env.refreshOut = (.ok true, st, []) := by
    simp [refresh_token_call, h1]
  have hs : sendLoop env.sends 0 5 = (.ok (r, 0), [Event.resourceSend]) := by
    unfold sendLoop
    rw [h3]
  simp [request, hr, h2, hs]

/-- Concrete instance of request_returns_decoded_body at the 500-status
environment: the body is handed back regardless of the status. -/
theorem request_returns_decoded_body_witness :
    demoEnv500.now ≤ demoAuthState.refresh_at
    ∧ (request demoAuthState demoEnv500 { domain := Domain.ME }).1
        = .ok (decodeText demoErrorResponse.text) :=
  ⟨by decide,
    request_returns_decoded_body demoAuthState demoEnv500 { domain := Domain.ME }
      demoErrorResponse "https://my.tado.com/api/v2/me" (by decide) rfl rfl⟩

/-- Claim C5: evaluation of `Http._login_device_flow` on a store holding a
non-expired pending authorization (the failing input).  The resume path is
taken and no device_authorize request is issued, but the method aborts
with AttributeError at the unassigned `self._device_flow_data` attribute
inside `_set_device_auth_data` instead of installing the pending data and
returning PENDING. -/
theorem login_device_flow_pending_bug :
    (login_device_flow (initialState demoPendingStore 1000) 1000
        (DevAuthOutcome.resp 200 demoPending)).1
      = .error (.attributeError "_device_flow_data")
    ∧ (login_device_flow (initialState demoPendingStore 1000) 1000
        (DevAuthOutcome.resp 200 demoPending)).2.2
      = [Event.storeWritePending demoPending] :=
  ⟨rfl, rfl⟩

/-- countEv distributes over append. -/
theorem countEv_append (e : Event) (l1 l2 : List Event) :
    countEv e (l1 ++ l2) = countEv e l1 + countEv e l2 := by
  induction l1 with
  | nil => simp [countEv]
  | cons x xs ih => simp [countEv, ih]; ring

/-- Session recreations recorded by m failed attempts. -/
theorem countEv_failEvents_recreate (m : Nat) :
    countEv Event.recreateSession (failEvents m) = m := by
  induction m with
  | zero => rfl
  | succ m ih =>
    simp [failEvents, countEv, ih]
    omega

/-- Sends recorded by m failed attempts. -/
theorem countEv_failEvents_send (m : Nat) :
    countEv Event.resourceSend (failEvents m) = m := by
  induction m with
  | zero => rfl
  | succ m ih =>
    simp [failEvents, countEv, ih]
    omega

/-- No token-endpoint event appears in m failed resource attempts. -/
theorem countEv_failEvents_token (m : Nat) :
    countEv Event.tokenEndpoint (failEvents m) = 0 := by
  induction m with
  | zero => rfl
  | succ m ih => simp [failEvents, countEv, ih]

/-- The retry loop when the first m attempts (m within the budget) raise
connection errors and attempt m completes: the response of attempt m is
returned and the trace shows m failed sends with session recreations
followed by the final send. -/
theorem sendLoop_ok (sends : Nat → SendOutcome) :
    ∀ (m i fuel : Nat) (r : HttpResponse), m ≤ fuel →
    (∀ t, t < m → sends (i + t) = .connError) → sends (i + m) = .resp r →
    sendLoop sends i fuel = (.ok (r, i + m), failEvents m ++ [Event.resourceSend]) := by
  intro m
  induction m with
  | zero =>
    intro i fuel r _ _ hs
    have h0 : sends i = .resp r := by simpa using hs
    cases fuel <;> (unfold sendLoop; rw [h0]) <;> simp [failEvents]
  | succ m ih =>
    intro i fuel r hm hf hs
    have h0 : sends i = .connError := by simpa using hf 0 (Nat.succ_pos m)
    cases fuel with
    | zero => omega
    | succ f =>
      unfold sendLoop
      rw [h0]
      have hrec := ih (i + 1) f r (by omega)
        (fun t ht => by
          have := hf (t + 1) (by omega)
          simpa [Nat.add_assoc, Nat.add_comm 1 t] using this)
        (by simpa [Nat.add_assoc, Nat.add_comm 1 m] using hs)
      rw [hrec]
      have : i + 1 + m = i + (m + 1) := by omega
      simp [failEvents, this]

/-- The retry loop when every attempt raises a connection error: after the
whole budget is spent the loop raises TadoException, with fuel + 1 sends
in the trace. -/
theorem sendLoop_fail (sends : Nat → SendOutcome)
    (h : ∀ t, sends t = .connError) :
    ∀ (fuel i : Nat),
    sendLoop sends i fuel
      = (.error (.tadoException "Connection failed after retries"),
         failEvents fuel ++ [Event.resourceSend]) := by
  intro fuel
  induction fuel with
  | zero =>
    intro i
    unfold sendLoop
    rw [h i]
    rfl
  | succ f ih =>
    intro i
    unfold sendLoop
    rw [h i, ih (i + 1)]
    simp [failEvents]

/-- Claim C2: with the token fresh (no implicit refresh), only connection
errors are retried by `Http.request`: if the first m attempts raise
connection errors (m at most 5) and attempt m completes, the decoded body
of attempt m is returned and exactly m session recreations appear in the
trace; if every attempt raises, the request fails with TadoException after
exactly 6 sends and 5 recreations; a credentials error is re-raised
immediately with no recreation. -/
theorem retry_policy (st : HttpState) (env : RequestEnv) (req : TadoRequest)
    (u : String) :
    env.now ≤ st.refresh_at →
    configure_url st req = .ok u →
    ((∀ (m : Nat) (r : HttpResponse), m ≤ 5 →
        (∀ t, t < m → env.sends t = .connError) → env.sends m = .resp r →
        (request st env req).1 = .ok (decodeText r.text)
        ∧ countEv Event.recreateSession (request st env req).2.2 = m
        ∧ countEv Event.resourceSend (request st env req).2.2 = m + 1)
     ∧ ((∀ t, env.sends t = .connError) →
        (request st env req).1 = .error (.tadoException "Connection failed after retries")
        ∧ countEv Event.resourceSend (request st env req).2.2 = 6
        ∧ countEv Event.recreateSession (request st env req).2.2 = 5)
     ∧ (∀ m : String, env.sends 0 = .credsError m →
        (request st env req).1 = .error (.tadoWrongCredentials m)
        ∧ countEv Event.recreateSession (request st env req).2.2 = 0)) := by
  intro h1 h2
  have hr : refresh_token_call st env.now none false env.refreshOut = (.ok true, st, []) := by
    simp [refresh_token_call, h1]
  refine ⟨?_, ?_, ?_⟩
  · intro m r hm hf hs
    have hloop := sendLoop_ok env.sends m 0 5 r hm (fun t ht => by simpa using hf t ht)
      (by simpa using hs)
    refine ⟨?_, ?_, ?_⟩
    · simp [request, hr, h2, hloop]
    · simp [request, hr, h2, hloop, countEv_append, countEv_failEvents_recreate, countEv]
    · simp [request, hr, h2, hloop, countEv_append, countEv_failEvents_send, countEv]
  · intro hall
    have hloop := sendLoop_fail env.sends hall 5 0
    refine ⟨?_, ?_, ?_⟩
    · simp [request, hr, h2, hloop]
    · simp [request, hr, h2, hloop, countEv_append, countEv_failEvents_send, countEv]
    · simp [request, hr, h2, hloop, countEv_append, countEv_failEvents_recreate, countEv]
  · intro m hm
    have hloop : sendLoop env.sends 0 5 = (.error (.tadoWrongCredentials m), [Event.resourceSend]) := by
      unfold sendLoop
      rw [hm]
    refine ⟨?_, ?_⟩
    · simp [request, hr, h2, hloop]
    · simp [request, hr, h2, hloop, countEv]

/-- Concrete instance of retry_policy: two connection errors, then a
successful empty-bodied response; the body comes back and the transport
was recreated exactly twice. -/
theorem retry_policy_witness :
    demoEnvRetry.now ≤ demoAuthState.refresh_at
    ∧ (request demoAuthState demoEnvRetry { domain := Domain.ME }).1
        = .ok (decodeText demoOkResponse.text)
    ∧ countEv Event.recreateSession
        (request demoAuthState demoEnvRetry { domain := Domain.ME }).2.2 = 2 := by
  have h := (retry_policy demoAuthState demoEnvRetry { domain := Domain.ME }
      "https://my.tado.com/api/v2/me" (by decide) rfl).1 2 demoOkResponse
      (by decide)
      (fun t ht => by simp [demoEnvRetry, ht])
      (by simp [demoEnvRetry])
  exact ⟨by decide, h.1, h.2.1⟩

/-- Lemma: `Http._configure_url` reads only the home id from the session state. -/
theorem configure_url_only_id (st st' : HttpState) (req : TadoRequest)
    (h : st'.id = st.id) : configure_url st' req = configure_url st req := by
  unfold configure_url
  rw [h]

/-- Installing a token response does not change the home id. -/
theorem set_oauth_header_id (st : HttpState) (now : Int) (tb : TokenBody) :
    (set_oauth_header st now tb).1.id = st.id := rfl

/-- The retry loop never touches the token endpoint. -/
theorem sendLoop_no_token (sends : Nat → SendOutcome) :
    ∀ (fuel i : Nat), countEv Event.tokenEndpoint (sendLoop sends i fuel).2 = 0 := by
  intro fuel
  induction fuel with
  | zero =>
    intro i
    unfold sendLoop
    cases sends i <;> rfl
  | succ f ih =>
    intro i
    unfold sendLoop
    cases sends i <;> simp [countEv, ih (i + 1)]

/-- Claim C3: installing a token response with TTL E at time now sets the
refresh deadline to now + E - 30; a request issued at or before the
deadline makes no token-endpoint call at all, and one issued after it
(with the refresh answered 200) makes exactly one token-endpoint call,
before the resource send. -/
theorem refresh_deadline_policy :
    (∀ (st : HttpState) (now : Int) (tb : TokenBody),
        (set_oauth_header st now tb).1.refresh_at = now + tb.expires_in - 30)
    ∧ (∀ (st : HttpState) (env : RequestEnv) (req : TadoRequest),
        env.now ≤ st.refresh_at →
        countEv Event.tokenEndpoint (request st env req).2.2 = 0)
    ∧ (∀ (st : HttpState) (env : RequestEnv) (req : TadoRequest)
        (tb : TokenBody) (u : String) (r : HttpResponse),
        st.refresh_at < env.now →
        env.refreshOut = .resp 200 (some tb) →
        configure_url st req = .ok u →
        env.sends 0 = .resp r →
        (request st env req).2.2
          = [Event.recreateSession, Event.tokenEndpoint,
             Event.storeWriteRefresh tb.refresh_token, Event.resourceSend]
        ∧ (request st env req).1 = .ok (decodeText r.text)) := by
  refine ⟨fun st now tb => rfl, ?_, ?_⟩
  · intro st env req h1
    have hr : refresh_token_call st env.now none false env.refreshOut = (.ok true, st, []) := by
      simp [refresh_token_call, h1]
    have h5 := sendLoop_no_token env.sends 5 0
    cases hu : configure_url st req with
    | error e => simp [request, hr, hu, countEv]
    | ok u =>
      cases hres : (sendLoop env.sends 0 5).1 with
      | error e => simp [request, hr, hu, hres, countEv, h5]
      | ok p => simp [request, hr, hu, hres, countEv, h5]
  · intro st env req tb u r h1 h2 h3 h4
    have hr : refresh_token_call st env.now none false env.refreshOut
        = (.ok true, (set_oauth_header st env.now tb).1,
           [Event.recreateSession, Event.tokenEndpoint,
            Event.storeWriteRefresh tb.refresh_token]) := by
      simp [refresh_token_call, h2, not_le.mpr h1, set_oauth_header]
    have hu : configure_url (set_oauth_header st env.now tb).1 req = .ok u := by
      rw [configure_url_only_id st (set_oauth_header st env.now tb).1 req
        (set_oauth_header_id st env.now tb), h3]
    have hs : sendLoop env.sends 0 5 = (.ok (r, 0), [Event.resourceSend]) := by
      unfold sendLoop
      rw [h4]
    constructor
    · simp [request, hr, hu, hs]
    · simp [request, hr, hu, hs]

/-- Concrete instance of refresh_deadline_policy: at time 200 (past the
deadline 100) the trace is exactly refresh followed by the resource
send. -/
theorem refresh_deadline_policy_witness :
    demoAuthState.refresh_at < demoEnvRefresh.now
    ∧ (request demoAuthState demoEnvRefresh { domain := Domain.ME }).2.2
        = [Event.recreateSession, Event.tokenEndpoint,
           Event.storeWriteRefresh demoToken.refresh_token, Event.resourceSend] :=
  ⟨by decide,
    (refresh_deadline_policy.2.2 demoAuthState demoEnvRefresh { domain := Domain.ME }
      demoToken "https://my.tado.com/api/v2/me" demoErrorResponse
      (by decide) rfl rfl rfl).1⟩

/-- Claim C4: a non-200 answer to a forced refresh yields boolean false
without raising; a non-200 answer to an implicit (expiry-driven) refresh
raises TadoWrongCredentialsException; a 200 answer installs the token
(authorization header and refresh token) and reports success in both
modes. -/
theorem refresh_failure_modes (st : HttpState) (now : Int) (arg : Option String)
    (s : Int) (b : Option TokenBody) (tb : TokenBody) :
    ((s ≠ 200 → (refresh_token_call st now arg true (.resp s b)).1 = .ok false)
     ∧ (st.refresh_at < now → s ≠ 200 →
        (refresh_token_call st now arg false (.resp s b)).1
          = .error (.tadoWrongCredentials
              "Failed to refresh token, probably wrong credentials"))
     ∧ ((refresh_token_call st now arg true (.resp 200 (some tb))).1 = .ok true
        ∧ (refresh_token_call st now arg true (.resp 200 (some tb))).2.1.auth_header
            = some ("Bearer " ++ tb.access_token)
        ∧ (refresh_token_call st now arg true (.resp 200 (some tb))).2.1.token_refresh
            = some tb.refresh_token
        ∧ (refresh_token_call st now arg true (.resp 200 (some tb))).2.1.store.refreshToken
            = some tb.refresh_token)
     ∧ (st.refresh_at < now →
        (refresh_token_call st now arg false (.resp 200 (some tb))).1 = .ok true
        ∧ (refresh_token_call st now arg false (.resp 200 (some tb))).2.1.auth_header
            = some ("Bearer " ++ tb.access_token))) := by
  refine ⟨?_, ?_, ?_, ?_⟩
  · intro hs
    simp [refresh_token_call, hs]
  · intro hlt hs
    simp [refresh_token_call, hs, not_le.mpr hlt]
  · refine ⟨?_, ?_, ?_, ?_⟩ <;> simp [refresh_token_call, set_oauth_header, saveToken]
  · intro hlt
    refine ⟨?_, ?_⟩ <;> simp [refresh_token_call, set_oauth_header, saveToken, not_le.mpr hlt]

/-- Concrete instance of refresh_failure_modes: a forced refresh answered
400 reports false; an implicit refresh at time 200 answered 400 raises;
a forced refresh answered 200 installs the demo token. -/
theorem refresh_failure_modes_witness :
    ((400 : Int) ≠ 200)
    ∧ (refresh_token_call demoAuthState 200 none true (.resp 400 none)).1 = .ok false
    ∧ (refresh_token_call demoAuthState 200 none false (.resp 400 none)).1
        = .error (.tadoWrongCredentials
            "Failed to refresh token, probably wrong credentials")
    ∧ (refresh_token_call demoAuthState 200 none true (.resp 200 (some demoToken))).1
        = .ok true :=
  ⟨by decide,
    (refresh_failure_modes demoAuthState 200 none 400 none demoToken).1 (by decide),
    (refresh_failure_modes demoAuthState 200 none 400 none demoToken).2.1
      (by decide) (by decide),
    (refresh_failure_modes demoAuthState 200 none 400 none demoToken).2.2.1.1⟩

/-- Claim C6 counterexample: a 400 poll response whose JSON body lacks the
"error" key makes `Http._check_device_activation` raise KeyError (from
`token_response.json()["error"]`), not the claimed AuthorizationError
(TadoException). -/
theorem check_device_activation_keyerror_counterexample :
    (check_device_activation demoPendingState 1000 (PollOutcome.resp 400 none none)).1
      = .error (.keyError "error")
    ∧ ∀ msg : String,
        (check_device_activation demoPendingState 1000
            (PollOutcome.resp 400 none none)).1
          ≠ .error (.tadoException msg) :=
  ⟨rfl, fun msg h => PyError.noConfusion (Except.error.inj h)⟩

/-- Claim C6 (amended): a pending poll step first checks wall-clock
expiry: past the deadline it raises TadoException with no HTTP call and no
state change; otherwise it makes exactly one token-endpoint call, and a
200 response with a token body installs the token and reports completed,
a 400 response with error == "authorization_pending" reports still
pending, and any other response raises TadoException — except that a 400
response whose body lacks the "error" key raises KeyError instead. -/
theorem check_device_activation_outcomes (st : HttpState) (now t : Int)
    (out : PollOutcome) :
    st.device_activation_status = DeviceActivationStatus.PENDING →
    st.expires_at = some t →
    ((t < now →
        check_device_activation st now out
          = (.error (.tadoException "User took too long to enter key"), st, []))
     ∧ (now ≤ t →
        (countEv Event.tokenEndpoint (check_device_activation st now out).2.2 = 1
         ∧ (∀ (tb : TokenBody) (ef : Option String),
              out = .resp 200 (some tb) ef →
              (check_device_activation st now out).1 = .ok true
              ∧ (check_device_activation st now out).2.1.auth_header
                  = some ("Bearer " ++ tb.access_token))
         ∧ (∀ tok : Option TokenBody,
              out = .resp 400 tok (some "authorization_pending") →
              (check_device_activation st now out).1 = .ok false)
         ∧ (∀ (s : Int) (tok : Option TokenBody) (ef : Option String),
              out = .resp s tok ef → s ≠ 200 → s ≠ 400 →
              (check_device_activation st now out).1
                = .error (.tadoException "Login failed"))
         ∧ (∀ (tok : Option TokenBody) (e : String),
              out = .resp 400 tok (some e) → e ≠ "authorization_pending" →
              (check_device_activation st now out).1
                = .error (.tadoException "Login failed"))))) := by
  intro hstat hexp
  constructor
  · intro hlt
    simp [check_device_activation, hstat, hexp, hlt]
  · intro hle
    have hguard : ¬ (t < now) := not_lt.mpr hle
    refine ⟨?_, ?_, ?_, ?_, ?_⟩
    · cases out with
      | connError => simp [check_device_activation, hstat, hexp, hguard, countEv]
      | resp s tok ef =>
        by_cases hs : s = 200
        · cases tok with
          | none => simp [check_device_activation, hstat, hexp, hguard, hs, countEv]
          | some tb =>
            simp [check_device_activation, hstat, hexp, hguard, hs, countEv,
              set_oauth_header]
        · by_cases hs4 : s = 400
          · cases ef with
            | none => simp [check_device_activation, hstat, hexp, hguard, hs, hs4, countEv]
            | some e =>
              by_cases he : e = "authorization_pending" <;>
                simp [check_device_activation, hstat, hexp, hguard, hs, hs4, he, countEv]
          · simp [check_device_activation, hstat, hexp, hguard, hs, hs4, countEv]
    · intro tb ef hout
      subst hout
      constructor
      · simp [check_device_activation, hstat, hexp, hguard]
      · simp [check_device_activation, hstat, hexp, hguard, set_oauth_header]
    · intro tok hout
      subst hout
      simp [check_device_activation, hstat, hexp, hguard]
    · intro s tok ef hout hs hs4
      subst hout
      simp [check_device_activation, hstat, hexp, hguard, hs, hs4]
    · intro tok e hout he
      subst hout
      simp [check_device_activation, hstat, hexp, hguard, he]

/-- Concrete instance of check_device_activation_outcomes: past the
deadline the poll step raises without any HTTP call, and before the
deadline an authorization_pending answer reports still pending. -/
theorem check_device_activation_outcomes_witness :
    demoPendingState.device_activation_status = DeviceActivationStatus.PENDING
    ∧ check_device_activation demoPendingState 3000 PollOutcome.connError
        = (.error (.tadoException "User took too long to enter key"),
           demoPendingState, [])
    ∧ (check_device_activation demoPendingState 1000
          (PollOutcome.resp 400 none (some "authorization_pending"))).1 = .ok false :=
  ⟨rfl,
    (check_device_activation_outcomes demoPendingState 3000 2000 PollOutcome.connError
      rfl rfl).1 (by decide),
    ((check_device_activation_outcomes demoPendingState 1000 2000
        (PollOutcome.resp 400 none (some "authorization_pending"))
        rfl rfl).2 (by decide)).2.2.1 none rfl⟩

/-- The state left by `Http._refresh_token` is either untouched or the
result of installing the single token body the environment supplied. -/
theorem refresh_token_call_state (st : HttpState) (now : Int) (arg : Option String)
    (force : Bool) (out : TokenEndpointOutcome) :
    (refresh_token_call st now arg force out).2.1 = st
    ∨ ∃ tb : TokenBody,
        (refresh_token_call st now arg force out).2.1 = (set_oauth_header st now tb).1
        ∧ out.refreshStrings = [tb.refresh_token] := by
  unfold refresh_token_call
  split
  · left
    rfl
  · cases out with
    | connError =>
      left
      rfl
    | resp s b =>
      dsimp only
      split
      · split
        · left
          rfl
        · left
          rfl
      · cases b with
        | none =>
          left
          rfl
        | some tb =>
          right
          exact ⟨tb, rfl, rfl⟩

/-- Lemma: `Http.request` leaves exactly the state of its refresh step. -/
theorem request_state (st : HttpState) (env : RequestEnv) (req : TadoRequest) :
    (request st env req).2.1
      = (refresh_token_call st env.now none false env.refreshOut).2.1 := by
  unfold request
  dsimp only
  split
  · rfl
  · split
    · rfl
    · split <;> rfl

/-- The state left by `Http._check_device_activation` is either untouched
or the result of installing the token body of a 200 poll answer. -/
theorem check_state (st : HttpState) (now : Int) (out : PollOutcome) :
    (check_device_activation st now out).2.1 = st
    ∨ ∃ tb : TokenBody,
        (check_device_activation st now out).2.1 = (set_oauth_header st now tb).1
        ∧ out.refreshStrings = [tb.refresh_token] := by
  unfold check_device_activation
  split
  · left
    rfl
  · split
    · left
      rfl
    · cases out with
      | connError =>
        left
        rfl
      | resp s tok ef =>
        dsimp only
        split
        · cases tok with
          | none =>
            left
            rfl
          | some tb =>
            right
            exact ⟨tb, rfl, rfl⟩
        · split
          · split
            · left
              rfl
            · split
              · left
                rfl
              · left
                rfl
          · left
            rfl

/-- The store written by `Http._set_device_auth_data` is exactly the
persisted pending payload. -/
theorem set_device_auth_data_store (st : HttpState) (d : DeviceFlowData) :
    (set_device_auth_data st d).2.1.store = savePending st.store d := by
  unfold set_device_auth_data
  rcases d.user_code with _ | uc
  · rfl
  · dsimp only
    split
    · rfl
    · rcases d.verification_uri with _ | v <;> rfl

/-- Lemma: `Http._set_device_auth_data` always raises (the unassigned
`self._device_flow_data` attribute). -/
theorem set_device_auth_data_raises (st : HttpState) (d : DeviceFlowData) :
    ∃ e : PyError, (set_device_auth_data st d).1 = .error e := by
  unfold set_device_auth_data
  rcases hu : d.user_code with _ | uc
  · exact ⟨.attributeError "_device_flow_data", by simp [hu]⟩
  · by_cases h0 : uc = ""
    · exact ⟨.attributeError "_device_flow_data", by simp [hu, h0]⟩
    · rcases hv : d.verification_uri with _ | v
      · exact ⟨.keyError "verification_uri", by simp [hu, h0, hv]⟩
      · exact ⟨.attributeError "_device_flow_data", by simp [hu, h0, hv]⟩

/-- Lemma: `Http._login_device_flow` can never return a status: every path ends
in an exception (through set_device_auth_data or its own guards). -/
theorem login_device_flow_raises (st : HttpState) (now : Int) (dOut : DevAuthOutcome) :
    ∃ e : PyError, (login_device_flow st now dOut).1 = .error e := by
  unfold login_device_flow
  cases hp : hasPending st.store now with
  | error e => exact ⟨e, rfl⟩
  | ok b =>
    cases b with
    | true =>
      cases hl : loadPending st.store with
      | error e => exact ⟨e, rfl⟩
      | ok d => exact set_device_auth_data_raises st d
    | false =>
      dsimp only
      split
      · exact ⟨.tadoException "The device has been started already", rfl⟩
      · cases dOut with
        | connError => exact ⟨.tadoException "Connection error", rfl⟩
        | resp s body =>
          dsimp only
          split
          · exact ⟨.tadoException "Login failed", rfl⟩
          · exact set_device_auth_data_raises st body

/-- The login arm of `Http.__init__` always propagates an exception. -/
theorem initLoginPath_raises (st : HttpState) (now : Int) (dOut : DevAuthOutcome) :
    ∃ e : PyError, initLoginPath st now dOut = .error e := by
  obtain ⟨e, he⟩ := login_device_flow_raises st now dOut
  rcases hl : login_device_flow st now dOut with ⟨res, st1, evs⟩
  rw [hl] at he
  refine ⟨e, ?_⟩
  unfold initLoginPath
  rw [hl]
  dsimp only at he ⊢
  rw [he]

/-- Installing a token touches only the token, deadline, header and store
fields. -/
theorem uiFields_set_oauth_header (st : HttpState) (now : Int) (tb : TokenBody) :
    uiFields (set_oauth_header st now tb).1 = uiFields st := rfl

/-- A token refresh preserves the device-activation view. -/
theorem uiFields_refresh_token_call (st : HttpState) (now : Int) (arg : Option String)
    (force : Bool) (out : TokenEndpointOutcome) :
    uiFields (refresh_token_call st now arg force out).2.1 = uiFields st := by
  rcases refresh_token_call_state st now arg force out with h | ⟨tb, h, _⟩ <;> rw [h]
  exact uiFields_set_oauth_header st now tb

/-- A resource request preserves the device-activation view. -/
theorem uiFields_request (st : HttpState) (env : RequestEnv) (req : TadoRequest) :
    uiFields (request st env req).2.1 = uiFields st := by
  rw [request_state]
  exact uiFields_refresh_token_call st env.now none false env.refreshOut

/-- A device-activation poll step preserves the device-activation view. -/
theorem uiFields_check (st : HttpState) (now : Int) (out : PollOutcome) :
    uiFields (check_device_activation st now out).2.1 = uiFields st := by
  rcases check_state st now out with h | ⟨tb, h, _⟩ <;> rw [h]
  exact uiFields_set_oauth_header st now tb

/-- Case analysis of `Http._device_ready`: either it returns, leaving a
COMPLETED state with cleared codes and resolved home id and dialect flag,
or it raises, leaving the status, codes and dialect flag untouched and the
home id either untouched or already resolved. -/
theorem device_ready_fields (st : HttpState) (a b : RequestEnv) :
    ((device_ready st a b).1 = .ok ()
      ∧ (device_ready st a b).2.1.device_activation_status
          = DeviceActivationStatus.COMPLETED
      ∧ (device_ready st a b).2.1.user_code = none
      ∧ (device_ready st a b).2.1.device_verification_url = none
      ∧ (∃ n : Int, (device_ready st a b).2.1.id = some n)
      ∧ (∃ g : Bool, (device_ready st a b).2.1.x_api = some g))
    ∨ ((∃ e : PyError, (device_ready st a b).1 = .error e)
      ∧ (device_ready st a b).2.1.device_activation_status = st.device_activation_status
      ∧ (device_ready st a b).2.1.user_code = st.user_code
      ∧ (device_ready st a b).2.1.device_verification_url = st.device_verification_url
      ∧ ((device_ready st a b).2.1.id = st.id
          ∨ ∃ n : Int, (device_ready st a b).2.1.id = some n)
      ∧ (device_ready st a b).2.1.x_api = st.x_api) := by
  unfold device_ready
  dsimp only
  split
  case h_1 e heq =>
    right
    have hu := uiFields_request st a getIdRequest
    refine ⟨⟨e, rfl⟩, ?_, ?_, ?_, .inl ?_, ?_⟩
    · exact congrArg (fun p => p.2.2.1) hu
    · exact congrArg (fun p => p.1) hu
    · exact congrArg (fun p => p.2.1) hu
    · exact congrArg (fun p => p.2.2.2.1) hu
    · exact congrArg (fun p => p.2.2.2.2) hu
  case h_2 body heq =>
    split
    case h_1 e heq2 =>
      right
      have hu := uiFields_request st a getIdRequest
      refine ⟨⟨e, rfl⟩, ?_, ?_, ?_, .inl ?_, ?_⟩
      · exact congrArg (fun p => p.2.2.1) hu
      · exact congrArg (fun p => p.1) hu
      · exact congrArg (fun p => p.2.1) hu
      · exact congrArg (fun p => p.2.2.2.1) hu
      · exact congrArg (fun p => p.2.2.2.2) hu
    case h_2 n heq2 =>
      split
      case h_1 e heq3 =>
        right
        have hu1 := uiFields_request st a getIdRequest
        have hu2 := uiFields_request
          { (request st a getIdRequest).2.1 with id := some n } b xLineRequest
        refine ⟨⟨e, rfl⟩, ?_, ?_, ?_, .inr ⟨n, ?_⟩, ?_⟩
        · exact (congrArg (fun p => p.2.2.1) hu2).trans
            (congrArg (fun p => p.2.2.1) hu1)
        · exact (congrArg (fun p => p.1) hu2).trans (congrArg (fun p => p.1) hu1)
        · exact (congrArg (fun p => p.2.1) hu2).trans (congrArg (fun p => p.2.1) hu1)
        · exact congrArg (fun p => p.2.2.2.1) hu2
        · exact (congrArg (fun p => p.2.2.2.2) hu2).trans
            (congrArg (fun p => p.2.2.2.2) hu1)
      case h_2 home heq3 =>
        left
        have hu2 := uiFields_request
          { (request st a getIdRequest).2.1 with id := some n } b xLineRequest
        refine ⟨rfl, rfl, rfl, rfl, ⟨n, ?_⟩, ⟨generationCheck home, rfl⟩⟩
        exact congrArg (fun p => p.2.2.2.1) hu2

/-- Lemma: `Http._device_ready` preserves the COMPLETED-session invariant and
establishes it outright when it returns. -/
theorem device_ready_inv (st : HttpState) (a b : RequestEnv)
    (hinv : st.device_activation_status = DeviceActivationStatus.COMPLETED →
      st.user_code = none ∧ st.device_verification_url = none
      ∧ st.id ≠ none ∧ st.x_api ≠ none) :
    (device_ready st a b).2.1.device_activation_status
        = DeviceActivationStatus.COMPLETED →
    (device_ready st a b).2.1.user_code = none
    ∧ (device_ready st a b).2.1.device_verification_url = none
    ∧ (device_ready st a b).2.1.id ≠ none
    ∧ (device_ready st a b).2.1.x_api ≠ none := by
  intro hc
  rcases device_ready_fields st a b with
    ⟨_, _, f2, f3, ⟨n, f4⟩, ⟨g, f5⟩⟩ | ⟨_, g1, g2, g3, g4, g5⟩
  · exact ⟨f2, f3, by simp [f4], by simp [f5]⟩
  · rw [g1] at hc
    obtain ⟨f1, f2, f3, f4⟩ := hinv hc
    refine ⟨g2.trans f1, g3.trans f2, ?_, ?_⟩
    · rcases g4 with g4 | ⟨n, g4⟩
      · rw [g4]
        exact f3
      · simp [g4]
    · rw [g5]
      exact f4

/-- Saving a refresh token adds only that string to the store. -/
theorem mem_saveToken_strings (s : Store) (r x : String)
    (h : x ∈ (saveToken s r).strings) : x = r ∨ x ∈ s.strings := by
  unfold saveToken Store.strings at h
  simp only [List.mem_append] at h
  rcases h with h | h
  · left
    simpa using h
  · right
    unfold Store.strings
    simp only [List.mem_append]
    exact .inr h

/-- Persisting a pending payload stores only that payload's strings. -/
theorem mem_savePending_strings (s : Store) (d : DeviceFlowData) (x : String)
    (h : x ∈ (savePending s d).strings) : x ∈ d.strings := by
  unfold savePending at h
  split at h
  · simp [Store.strings] at h
  · simpa [Store.strings] using h

/-- The store after `Http._set_oauth_header`. -/
theorem set_oauth_header_store (st : HttpState) (now : Int) (tb : TokenBody) :
    (set_oauth_header st now tb).1.store = saveToken st.store tb.refresh_token := rfl

/-- Strings in the store after a token refresh come from the prior store
or from the refresh token of the endpoint's answer. -/
theorem refresh_store_strings (st : HttpState) (now : Int) (arg : Option String)
    (force : Bool) (out : TokenEndpointOutcome) (x : String)
    (h : x ∈ (refresh_token_call st now arg force out).2.1.store.strings) :
    x ∈ st.store.strings ∨ x ∈ out.refreshStrings := by
  rcases refresh_token_call_state st now arg force out with heq | ⟨tb, heq, hrs⟩
  · rw [heq] at h
    exact .inl h
  · rw [heq, set_oauth_header_store] at h
    rcases mem_saveToken_strings st.store tb.refresh_token x h with h1 | h1
    · right
      rw [hrs, h1]
      exact List.mem_singleton.mpr rfl
    · exact .inl h1

/-- Strings in the store after `Http.request` come from the prior store or
from the refresh token of the environment's token-endpoint answer. -/
theorem request_store_strings (st : HttpState) (env : RequestEnv) (req : TadoRequest)
    (x : String) (h : x ∈ (request st env req).2.1.store.strings) :
    x ∈ st.store.strings ∨ x ∈ env.refreshStrings := by
  rw [request_state] at h
  exact refresh_store_strings st env.now none false env.refreshOut x h

/-- Strings in the store after a poll step come from the prior store or
from the refresh token of the poll answer. -/
theorem check_store_strings (st : HttpState) (now : Int) (out : PollOutcome)
    (x : String) (h : x ∈ (check_device_activation st now out).2.1.store.strings) :
    x ∈ st.store.strings ∨ x ∈ out.refreshStrings := by
  rcases check_state st now out with heq | ⟨tb, heq, hrs⟩
  · rw [heq] at h
    exact .inl h
  · rw [heq, set_oauth_header_store] at h
    rcases mem_saveToken_strings st.store tb.refresh_token x h with h1 | h1
    · right
      rw [hrs, h1]
      exact List.mem_singleton.mpr rfl
    · exact .inl h1

/-- Lemma: `Http.request` does not change any non-ui field other than the token
bookkeeping: in particular the resulting store is the refresh step's. -/
theorem device_ready_store_strings (st : HttpState) (a b : RequestEnv) (x : String)
    (h : x ∈ (device_ready st a b).2.1.store.strings) :
    x ∈ st.store.strings ∨ x ∈ a.refreshStrings ∨ x ∈ b.refreshStrings := by
  unfold device_ready at h
  dsimp only at h
  split at h
  · rcases request_store_strings st a getIdRequest x h with h1 | h1
    · exact .inl h1
    · exact .inr (.inl h1)
  · split at h
    · rcases request_store_strings st a getIdRequest x h with h1 | h1
      · exact .inl h1
      · exact .inr (.inl h1)
    · split at h
      · rcases request_store_strings
            { (request st a getIdRequest).2.1 with id := _ } b xLineRequest x h with
          h1 | h1
        · rcases request_store_strings st a getIdRequest x h1 with h2 | h2
          · exact .inl h2
          · exact .inr (.inl h2)
        · exact .inr (.inr h1)
      · rcases request_store_strings
            { (request st a getIdRequest).2.1 with id := _ } b xLineRequest x h with
          h1 | h1
        · rcases request_store_strings st a getIdRequest x h1 with h2 | h2
          · exact .inl h2
          · exact .inr (.inl h2)
        · exact .inr (.inr h1)

/-- Lemma: `Http.__init__` either aborts with an exception (in this source the
device-flow arm always does, through the `_device_flow_data` bug) or
returns the state produced by a completed `_device_ready`. -/
theorem init_cases (store0 : Store) (now : Int) (rOut : TokenEndpointOutcome)
    (a b : RequestEnv) (dOut : DevAuthOutcome) :
    (∃ e : PyError, init store0 now rOut a b dOut = .error e)
    ∨ ∃ st1 : HttpState,
        init store0 now rOut a b dOut = .ok (device_ready st1 a b).2.1
        ∧ (device_ready st1 a b).1 = .ok ()
        ∧ ∀ x : String, x ∈ st1.store.strings →
            x ∈ store0.strings ∨ x ∈ rOut.refreshStrings := by
  unfold init
  dsimp only
  split
  · exact .inl (initLoginPath_raises _ now dOut)
  · split
    · exact .inl (initLoginPath_raises _ now dOut)
    · split
      case h_1 e heq => exact .inl ⟨e, rfl⟩
      case h_2 heq =>
        split
        case h_1 e2 heq2 => exact .inl ⟨e2, rfl⟩
        case h_2 u heq2 =>
          right
          refine ⟨_, rfl, ?_, ?_⟩
          · cases u
            exact heq2
          · intro x hx
            exact refresh_store_strings (initialState store0 now) now _ true rOut x hx
      case h_3 heq => exact .inl (initLoginPath_raises _ now dOut)

/-- A successful construction yields a COMPLETED state with the codes
cleared and the home id and dialect flag resolved. -/
theorem init_ok_completed (store0 : Store) (now : Int) (rOut : TokenEndpointOutcome)
    (a b : RequestEnv) (dOut : DevAuthOutcome) (st : HttpState)
    (h : init store0 now rOut a b dOut = .ok st) :
    st.device_activation_status = DeviceActivationStatus.COMPLETED
    ∧ st.user_code = none ∧ st.device_verification_url = none
    ∧ st.id ≠ none ∧ st.x_api ≠ none := by
  rcases init_cases store0 now rOut a b dOut with ⟨e, he⟩ | ⟨st1, he, hok, _⟩
  · rw [he] at h
    exact absurd h (by simp)
  · rw [he] at h
    have hst : (device_ready st1 a b).2.1 = st := Except.ok.inj h
    rcases device_ready_fields st1 a b with
      ⟨_, f1, f2, f3, ⟨n, f4⟩, ⟨g, f5⟩⟩ | ⟨⟨e, herr⟩, _⟩
    · rw [hst] at f1 f2 f3 f4 f5
      exact ⟨f1, f2, f3, by simp [f4], by simp [f5]⟩
    · exact absurd (hok.symm.trans herr) (by simp)

/-- Claim C10: in every reachable session state with activation status
COMPLETED, the user code and device verification URL are None while the
home id and the dialect flag are resolved; the `_device_ready` transition
establishes this and no session operation undoes it. -/
theorem completed_session_invariant (st : HttpState) (h : Reachable st) :
    st.device_activation_status = DeviceActivationStatus.COMPLETED →
    st.user_code = none ∧ st.device_verification_url = none
    ∧ st.id ≠ none ∧ st.x_api ≠ none := by
  induction h with
  | init s0 now rOut a b dOut st h =>
    intro _
    exact (init_ok_completed s0 now rOut a b dOut st h).2
  | step st st' hreach hstep ih =>
    cases hstep with
    | issue env req =>
      intro hc
      have hu := uiFields_request st env req
      have e1 : (request st env req).2.1.user_code = st.user_code :=
        congrArg (fun p => p.1) hu
      have e2 : (request st env req).2.1.device_verification_url
          = st.device_verification_url := congrArg (fun p => p.2.1) hu
      have e3 : (request st env req).2.1.device_activation_status
          = st.device_activation_status := congrArg (fun p => p.2.2.1) hu
      have e4 : (request st env req).2.1.id = st.id :=
        congrArg (fun p => p.2.2.2.1) hu
      have e5 : (request st env req).2.1.x_api = st.x_api :=
        congrArg (fun p => p.2.2.2.2) hu
      rw [e3] at hc
      obtain ⟨f1, f2, f3, f4⟩ := ih hc
      refine ⟨e1.trans f1, e2.trans f2, ?_, ?_⟩
      · rw [e4]
        exact f3
      · rw [e5]
        exact f4
    | poll now out hg =>
      intro hc
      have hu := uiFields_check st now out
      have e1 : (check_device_activation st now out).2.1.user_code = st.user_code :=
        congrArg (fun p => p.1) hu
      have e2 : (check_device_activation st now out).2.1.device_verification_url
          = st.device_verification_url := congrArg (fun p => p.2.1) hu
      have e3 : (check_device_activation st now out).2.1.device_activation_status
          = st.device_activation_status := congrArg (fun p => p.2.2.1) hu
      have e4 : (check_device_activation st now out).2.1.id = st.id :=
        congrArg (fun p => p.2.2.2.1) hu
      have e5 : (check_device_activation st now out).2.1.x_api = st.x_api :=
        congrArg (fun p => p.2.2.2.2) hu
      rw [e3] at hc
      obtain ⟨f1, f2, f3, f4⟩ := ih hc
      refine ⟨e1.trans f1, e2.trans f2, ?_, ?_⟩
      · rw [e4]
        exact f3
      · rw [e5]
        exact f4
    | ready envA envB hg =>
      exact device_ready_inv st envA envB ih

/-- Concrete instance of completed_session_invariant at the state built by
demoInit: the constructed session is COMPLETED with codes cleared and home
id and dialect resolved. -/
theorem completed_session_invariant_witness :
    init demoTokenStore 0 (.resp 200 (some demoToken)) demoEnvMe demoEnvHome
        (.resp 200 demoPending) = .ok demoInitState
    ∧ demoInitState.device_activation_status = DeviceActivationStatus.COMPLETED
    ∧ (demoInitState.user_code = none ∧ demoInitState.device_verification_url = none
        ∧ demoInitState.id ≠ none ∧ demoInitState.x_api ≠ none) :=
  ⟨rfl, rfl,
    completed_session_invariant demoInitState
      (Reachable.init demoTokenStore 0 (.resp 200 (some demoToken)) demoEnvMe
        demoEnvHome (.resp 200 demoPending) demoInitState rfl) rfl⟩

/-- Lemma: `DeviceTokenManager.load_pending_device_data` returns exactly the
stored pending record. -/
theorem loadPending_ok (s : Store) (d : DeviceFlowData)
    (h : loadPending s = .ok d) : s.pending = some d := by
  unfold loadPending at h
  cases hs : s.pending with
  | none =>
    rw [hs] at h
    exact absurd h (by simp)
  | some d1 =>
    rw [hs] at h
    rw [Except.ok.inj h]

/-- A payload stored as pending contributes its strings to the store. -/
theorem pending_strings_sub (s : Store) (d : DeviceFlowData)
    (h : s.pending = some d) (x : String) (hx : x ∈ d.strings) :
    x ∈ s.strings := by
  unfold Store.strings
  rw [h]
  simp only [List.mem_append]
  exact .inr hx

/-- Strings in the store after `Http._login_device_flow` come from the
prior store or from the device-authorize response body. -/
theorem login_store_strings (st : HttpState) (now : Int) (dOut : DevAuthOutcome)
    (x : String) (h : x ∈ (login_device_flow st now dOut).2.1.store.strings) :
    x ∈ st.store.strings ∨ x ∈ DevAuthOutcome.bodyStrings dOut := by
  unfold login_device_flow at h
  split at h
  · exact .inl h
  · split at h
    case h_1 heq2 =>
      exact .inl h
    case h_2 d heq2 =>
      rw [set_device_auth_data_store] at h
      left
      exact pending_strings_sub st.store d (loadPending_ok st.store d heq2) x
        (mem_savePending_strings st.store d x h)
  · split at h
    · exact .inl h
    · split at h
      · exact .inl h
      · dsimp only at h
        split at h
        · exact .inl h
        · rw [set_device_auth_data_store] at h
          right
          exact mem_savePending_strings st.store _ x h

/-- Strings in the store of a constructed session come from the injected
store or the refresh tokens handed over by the environments. -/
theorem init_store_strings (store0 : Store) (now : Int)
    (rOut : TokenEndpointOutcome) (a b : RequestEnv) (dOut : DevAuthOutcome)
    (st : HttpState) (x : String) (h : init store0 now rOut a b dOut = .ok st)
    (hx : x ∈ st.store.strings) :
    x ∈ store0.strings ∨ x ∈ rOut.refreshStrings
    ∨ x ∈ a.refreshStrings ∨ x ∈ b.refreshStrings := by
  rcases init_cases store0 now rOut a b dOut with ⟨e, he⟩ | ⟨st1, he, hok, hsub⟩
  · rw [he] at h
    exact absurd h (by simp)
  · rw [he] at h
    rw [← Except.ok.inj h] at hx
    rcases device_ready_store_strings st1 a b x hx with h1 | h1 | h1
    · rcases hsub x h1 with h2 | h2
      · exact .inl h2
      · exact .inr (.inl h2)
    · exact .inr (.inr (.inl h1))
    · exact .inr (.inr (.inr h1))

/-- Claim C9: the access token is held only in memory — installing a token
puts `Bearer (access token)` in the Authorization header while persisting
only the refresh token — and across construction, requests, device-flow
polls, `_device_ready` and `_login_device_flow`, a string that is not
already in the store and is not a refresh token or pending payload offered
by the environment (in particular, the access token of any response whose
token strings are distinct) never enters the token store. -/
theorem access_token_only_in_memory (a : String) :
    (∀ (st : HttpState) (now : Int) (tb : TokenBody),
        (set_oauth_header st now tb).1.auth_header
            = some ("Bearer " ++ tb.access_token)
        ∧ (set_oauth_header st now tb).1.store = saveToken st.store tb.refresh_token)
    ∧ (∀ (st : HttpState) (env : RequestEnv) (req : TadoRequest),
        a ∉ st.store.strings → a ∉ env.refreshStrings →
        a ∉ (request st env req).2.1.store.strings)
    ∧ (∀ (st : HttpState) (now : Int) (out : PollOutcome),
        a ∉ st.store.strings → a ∉ PollOutcome.refreshStrings out →
        a ∉ (check_device_activation st now out).2.1.store.strings)
    ∧ (∀ (st : HttpState) (a' b' : RequestEnv),
        a ∉ st.store.strings → a ∉ a'.refreshStrings → a ∉ b'.refreshStrings →
        a ∉ (device_ready st a' b').2.1.store.strings)
    ∧ (∀ (st : HttpState) (now : Int) (dOut : DevAuthOutcome),
        a ∉ st.store.strings → a ∉ DevAuthOutcome.bodyStrings dOut →
        a ∉ (login_device_flow st now dOut).2.1.store.strings)
    ∧ (∀ (store0 : Store) (now : Int) (rOut : TokenEndpointOutcome)
        (a' b' : RequestEnv) (dOut : DevAuthOutcome) (st : HttpState),
        init store0 now rOut a' b' dOut = .ok st →
        a ∉ store0.strings → a ∉ rOut.refreshStrings →
        a ∉ a'.refreshStrings → a ∉ b'.refreshStrings →
        a ∉ st.store.strings) := by
  refine ⟨fun st now tb => ⟨rfl, rfl⟩, ?_, ?_, ?_, ?_, ?_⟩
  · intro st env req h1 h2 hmem
    rcases request_store_strings st env req a hmem with h | h
    · exact h1 h
    · exact h2 h
  · intro st now out h1 h2 hmem
    rcases check_store_strings st now out a hmem with h | h
    · exact h1 h
    · exact h2 h
  · intro st a' b' h1 h2 h3 hmem
    rcases device_ready_store_strings st a' b' a hmem with h | h | h
    · exact h1 h
    · exact h2 h
    · exact h3 h
  · intro st now dOut h1 h2 hmem
    rcases login_store_strings st now dOut a hmem with h | h
    · exact h1 h
    · exact h2 h
  · intro store0 now rOut a' b' dOut st hinit h1 h2 h3 h4 hmem
    rcases init_store_strings store0 now rOut a' b' dOut st a hinit hmem with
      h | h | h | h
    · exact h1 h
    · exact h2 h
    · exact h3 h
    · exact h4 h

/-- Concrete instance of access_token_only_in_memory: a request that
triggers a refresh installs the access token in the Authorization header
while the store never contains it. -/
theorem access_token_only_in_memory_witness :
    "ACCESS-SECRET" ∉ demoAuthState.store.strings
    ∧ "ACCESS-SECRET" ∉ demoEnvRefresh.refreshStrings
    ∧ (request demoAuthState demoEnvRefresh { domain := Domain.ME }).2.1.auth_header
        = some ("Bearer " ++ demoToken.access_token)
    ∧ "ACCESS-SECRET"
        ∉ (request demoAuthState demoEnvRefresh { domain := Domain.ME }).2.1.store.strings :=
  ⟨by decide, by decide, rfl,
    (access_token_only_in_memory "ACCESS-SECRET").2.1 demoAuthState demoEnvRefresh
      { domain := Domain.ME } (by decide) (by decide)⟩
